import Mathlib

/-!
Verification development for `skeLCS/eLCS.py` (scikit-eLCS).

The file shallowly embeds the `eLCS` estimator class: hyperparameter
validation in `__init__` (with `checkIsInt` / `checkIsFloat`), the `fit`
training loop and `runIteration` protocol, `predict` / `predict_proba` /
`score`, the trained-model guards on the export routines, and
`saveFinalMetrics` / `rebootPopulation`.

Python runtime values that flow through the validation code are modelled by
the inductive `PyVal`; finite floats are represented as rationals (`ℚ`) with
a separate `NaN` constructor, since the validation logic only compares,
truncates and converts them.  Components of the repository that are not part
of `eLCS.py` (the `ClassifierSet`, `Classifier`, `Prediction`,
`OfflineEnvironment` classes) are held abstract or modelled from the
specification; each such definition is marked in its doc comment.
-/

namespace SkeLCS

/-- A Python runtime value, restricted to the shapes that reach the
validation code of `eLCS.__init__` and `eLCS.fit`: booleans, integers,
finite floats (as rationals), the float `nan`, strings, `None` and numpy
arrays.  Numeric string literals (such as `"3.0"`, which Python's `float`
would parse) are not modelled: `float` applied to a `pyStr` is treated as
failing, which is faithful for every non-numeric string. -/
inductive PyVal where
  | pyBool (b : Bool)
  | pyInt (n : Int)
  | pyFloat (q : ℚ)
  | pyNan
  | pyStr (s : String)
  | pyNone
  | pyNdarray (xs : List PyVal)

namespace PyVal

/-- Python `int(q)` on a finite float: truncation toward zero
(`Int.tdiv` is T-division, matching Python `int()`). -/
def ratTrunc (q : ℚ) : ℤ := Int.tdiv q.num (q.den : ℤ)

/-- The numeric content of a value, when it is an ordinary number
(`bool`s count as `0`/`1` in Python arithmetic); `nan` and non-numbers
have none. -/
def toQ? : PyVal → Option ℚ
  | pyBool b => some (if b then 1 else 0)
  | pyInt n => some (n : ℚ)
  | pyFloat q => some q
  | _ => none

/-- Python `float(v)` succeeds: true for `bool`, `int`, `float` (including
`nan`); false for non-numeric strings, `None` and arrays. -/
def floatOk : PyVal → Bool
  | pyBool _ => true
  | pyInt _ => true
  | pyFloat _ => true
  | pyNan => true
  | pyStr _ => false
  | pyNone => false
  | pyNdarray _ => false

/-- Python `int(v)` result, `none` when the conversion raises
(`int(nan)` raises `ValueError`). -/
def intConv : PyVal → Option Int
  | pyBool b => some (if b then 1 else 0)
  | pyInt n => some n
  | pyFloat q => some (ratTrunc q)
  | _ => none

/-- Python `np.isnan(v)`: `none` models the `TypeError` raised on
non-numeric input. -/
def isnanOk : PyVal → Option Bool
  | pyBool _ => some false
  | pyInt _ => some false
  | pyFloat _ => some false
  | pyNan => some true
  | _ => none

/-- Python `v < c` for a rational constant `c`, as used by the range checks.
`nan < c` is `False` in Python, matching the `none` branch. -/
def pyLtQ (v : PyVal) (c : ℚ) : Bool :=
  match v.toQ? with
  | some q => decide (q < c)
  | none => false

/-- Python `v > c` for a rational constant `c`; `nan > c` is `False`. -/
def pyGtQ (v : PyVal) (c : ℚ) : Bool :=
  match v.toQ? with
  | some q => decide (c < q)
  | none => false

/-- Python `isinstance(v, bool)`. -/
def isBoolVal : PyVal → Bool
  | pyBool _ => true
  | _ => false

/-- Python `isinstance(v, str)`. -/
def isStrAny : PyVal → Bool
  | pyStr _ => true
  | _ => false

/-- Python `v == s` against a string literal `s` (false for non-strings). -/
def isStrVal (v : PyVal) (s : String) : Bool :=
  match v with
  | pyStr t => t == s
  | _ => false

/-- Python `v is None`. -/
def isNoneVal : PyVal → Bool
  | pyNone => true
  | _ => false

/-- Python `isinstance(v, np.ndarray)`. -/
def isNdarray : PyVal → Bool
  | pyNdarray _ => true
  | _ => false

/-- The elements of an ndarray value (used only after `isNdarray`). -/
def elemsOf : PyVal → List PyVal
  | pyNdarray xs => xs
  | _ => []

end PyVal

open PyVal

/-- `eLCS.checkIsInt` (eLCS.py lines 240-248): `float(num)` must succeed and
`num - int(num) == 0`, i.e. `num == int(num)` (stated as the equality so the
test is kernel-computable).  For `bool`/`int` this is true; for a finite
float it asks the fractional part to vanish (Python `int()` truncates toward
zero); `int(nan)` raises inside the `try`, so `nan` yields `False`; for a
string the subtraction `str - int` raises `TypeError`, so every string
yields `False`; `None`/ndarray fail at `float(num)`. -/
def checkIsInt : PyVal → Bool
  | .pyBool _ => true
  | .pyInt _ => true
  | .pyFloat q => decide (q = ((ratTrunc q : ℤ) : ℚ))
  | _ => false

/-- `eLCS.checkIsFloat` (eLCS.py lines 250-255): `float(num)` must succeed. -/
def checkIsFloat : PyVal → Bool := floatOk

/-- The rational `5/2`, written as a raw fraction so that it
kernel-reduces. -/
def qPosFiveHalves : ℚ := ⟨5, 2, by norm_num, by norm_num⟩

/-- The rational `-5/2`, written as a raw fraction. -/
def qNegFiveHalves : ℚ := ⟨-5, 2, by norm_num, by norm_num⟩

example : checkIsInt (.pyFloat 7) = true := by decide
example : checkIsInt (.pyFloat qPosFiveHalves) = false := by decide
example : checkIsInt (.pyFloat qNegFiveHalves) = false := by decide
example : checkIsInt .pyNan = false := by decide
example : checkIsInt (.pyStr "5") = false := by decide
example : checkIsFloat .pyNan = true := by decide

/-! ### Hyperparameter validation (`eLCS.__init__`, eLCS.py lines 61-204) -/

/-- The rational `1/2` as a raw fraction (default `p_spec` and `theta_sel`). -/
def qHalf : ℚ := ⟨1, 2, by norm_num, by norm_num⟩

/-- The rational `4/5` (default `chi = 0.8`). -/
def qFourFifths : ℚ := ⟨4, 5, by norm_num, by norm_num⟩

/-- The rational `1/25` (default `upsilon = 0.04`). -/
def qOneTwentyFifth : ℚ := ⟨1, 25, by norm_num, by norm_num⟩

/-- The rational `99/100` (default `acc_sub = 0.99`). -/
def qNinetyNineHundredths : ℚ := ⟨99, 100, by norm_num, by norm_num⟩

/-- The rational `1/5` (default `beta = 0.2`). -/
def qOneFifth : ℚ := ⟨1, 5, by norm_num, by norm_num⟩

/-- The rational `1/10` (default `delta` and `fitnessReduction`). -/
def qOneTenth : ℚ := ⟨1, 10, by norm_num, by norm_num⟩

/-- The rational `1/100` (default `init_fit = 0.01`). -/
def qOneHundredth : ℚ := ⟨1, 100, by norm_num, by norm_num⟩

/-- The keyword arguments of `eLCS.__init__`, each an arbitrary Python
value, exactly as the validation code receives them. -/
structure InitParams where
  learningIterations : PyVal
  trackAccuracyWhileFit : PyVal
  N : PyVal
  p_spec : PyVal
  discreteAttributeLimit : PyVal
  specifiedAttributes : PyVal
  nu : PyVal
  chi : PyVal
  upsilon : PyVal
  theta_GA : PyVal
  theta_del : PyVal
  theta_sub : PyVal
  acc_sub : PyVal
  beta : PyVal
  delta : PyVal
  init_fit : PyVal
  fitnessReduction : PyVal
  doCorrectSetSubsumption : PyVal
  doGASubsumption : PyVal
  selectionMethod : PyVal
  theta_sel : PyVal
  randomSeed : PyVal
  matchForMissingness : PyVal
  rebootFilename : PyVal

/-- The default arguments of `eLCS.__init__` (eLCS.py lines 18-22). -/
def defaultParams : InitParams where
  learningIterations := .pyInt 10000
  trackAccuracyWhileFit := .pyBool false
  N := .pyInt 1000
  p_spec := .pyFloat qHalf
  discreteAttributeLimit := .pyInt 10
  specifiedAttributes := .pyNdarray []
  nu := .pyInt 5
  chi := .pyFloat qFourFifths
  upsilon := .pyFloat qOneTwentyFifth
  theta_GA := .pyInt 25
  theta_del := .pyInt 20
  theta_sub := .pyInt 20
  acc_sub := .pyFloat qNinetyNineHundredths
  beta := .pyFloat qOneFifth
  delta := .pyFloat qOneTenth
  init_fit := .pyFloat qOneHundredth
  fitnessReduction := .pyFloat qOneTenth
  doCorrectSetSubsumption := .pyBool false
  doGASubsumption := .pyBool true
  selectionMethod := .pyStr "tournament"
  theta_sel := .pyFloat qHalf
  randomSeed := .pyStr "none"
  matchForMissingness := .pyBool false
  rebootFilename := .pyNone

/-- The `discreteAttributeLimit` check (eLCS.py lines 86-95): the value is
`"c"`, `"d"`, or something whose `int(…)` conversion succeeds, that passes
`checkIsInt`, and whose integer value is nonnegative; any exception inside
the `try` is turned into the same `Exception`. -/
def dalOk (v : PyVal) : Bool :=
  isStrVal v "c" || isStrVal v "d" ||
    (match intConv v with
     | some dpl => checkIsInt v && decide (0 ≤ dpl)
     | none => false)

/-- The per-element check of the `specifiedAttributes` loop
(eLCS.py lines 101-105): `checkIsInt(spAttr)` and `int(spAttr) >= 0`. -/
def saOk (a : PyVal) : Bool :=
  checkIsInt a &&
    (match intConv a with
     | some n => decide (0 ≤ n)
     | none => false)

/-- Raise the first check whose condition fires, as a sequence of Python
`if cond: raise Exception(msg)` statements does. -/
def firstError : List (Bool × String) → Except String Unit
  | [] => .ok ()
  | c :: rest => if c.1 then .error c.2 else firstError rest

/-- The ordered raise-checks of `eLCS.__init__` (eLCS.py lines 61-204):
each pair is the condition under which the constructor raises, together
with the `Exception` message, transcribed check by check in source order. -/
def initChecks (p : InitParams) : List (Bool × String) :=
  [ (!checkIsInt p.learningIterations, "learningIterations param must be nonnegative integer"),
    (pyLtQ p.learningIterations 0, "learningIterations param must be nonnegative integer"),
    (!isBoolVal p.trackAccuracyWhileFit, "trackAccuracyWhileFit param must be boolean"),
    (!checkIsInt p.N, "N param must be nonnegative integer"),
    (pyLtQ p.N 0, "N param must be nonnegative integer"),
    (!checkIsFloat p.p_spec, "p_spec param must be float from 0 - 1"),
    (pyLtQ p.p_spec 0 || pyGtQ p.p_spec 1, "p_spec param must be float from 0 - 1"),
    (!dalOk p.discreteAttributeLimit, "discreteAttributeLimit param must be nonnegative integer or c or d"),
    (!isNdarray p.specifiedAttributes, "specifiedAttributes param must be ndarray"),
    (!(elemsOf p.specifiedAttributes).all saOk, "All specifiedAttributes elements param must be nonnegative integers"),
    (!checkIsFloat p.nu, "nu param must be float"),
    (!checkIsFloat p.chi, "chi param must be float from 0 - 1"),
    (pyLtQ p.chi 0 || pyGtQ p.chi 1, "chi param must be float from 0 - 1"),
    (!checkIsFloat p.upsilon, "upsilon param must be float from 0 - 1"),
    (pyLtQ p.upsilon 0 || pyGtQ p.upsilon 1, "upsilon param must be float from 0 - 1"),
    (!checkIsFloat p.theta_GA, "theta_GA param must be nonnegative float"),
    (pyLtQ p.theta_GA 0, "theta_GA param must be nonnegative float"),
    (!checkIsInt p.theta_del, "theta_del param must be nonnegative integer"),
    (pyLtQ p.theta_del 0, "theta_del param must be nonnegative integer"),
    (!checkIsInt p.theta_sub, "theta_sub param must be nonnegative integer"),
    (pyLtQ p.theta_sub 0, "theta_sub param must be nonnegative integer"),
    (!checkIsFloat p.acc_sub, "acc_sub param must be float from 0 - 1"),
    (pyLtQ p.acc_sub 0 || pyGtQ p.acc_sub 1, "acc_sub param must be float from 0 - 1"),
    (!checkIsFloat p.beta, "beta param must be float"),
    (!checkIsFloat p.delta, "delta param must be float"),
    (!checkIsFloat p.init_fit, "init_fit param must be float"),
    (!checkIsFloat p.fitnessReduction, "fitnessReduction param must be float"),
    (!isBoolVal p.doCorrectSetSubsumption, "doCorrectSetSubsumption param must be boolean"),
    (!isBoolVal p.doGASubsumption, "doGASubsumption param must be boolean"),
    (!(isStrVal p.selectionMethod "tournament" || isStrVal p.selectionMethod "roulette"), "selectionMethod param must be tournament or roulette"),
    (!checkIsFloat p.theta_sel, "theta_sel param must be float from 0 - 1"),
    (pyLtQ p.theta_sel 0 || pyGtQ p.theta_sel 1, "theta_sel param must be float from 0 - 1"),
    (!(isStrVal p.randomSeed "none" || checkIsInt p.randomSeed), "randomSeed param must be integer or none"),
    (!isBoolVal p.matchForMissingness, "matchForMissingness param must be boolean"),
    (!(isNoneVal p.rebootFilename || isStrAny p.rebootFilename), "rebootFilename param must be None or String from pickle") ]

/-- The parameter-validity checking of `eLCS.__init__`
(eLCS.py lines 61-204): the result is `.error msg` when the constructor
raises `Exception(msg)` and `.ok ()` when construction succeeds.  The
`random.seed` / `np.random.seed` side effects under the `randomSeed` check
do not affect validation and are modelled in the training part of this
file. -/
def validateInit (p : InitParams) : Except String Unit :=
  firstError (initChecks p)

theorem firstError_eq_ok_iff (l : List (Bool × String)) :
    firstError l = .ok () ↔ ∀ c ∈ l, c.1 = false := by
  induction l with
  | nil => simp [firstError]
  | cons c rest ih =>
      by_cases hc : c.1 <;> simp [firstError, hc, ih]

/-- All 35 validation conditions of `eLCS.__init__` at once: none of the
raise-conditions fires.  `validateInit` succeeds exactly on configurations
satisfying this predicate. -/
def ValidP (p : InitParams) : Prop :=
  (!checkIsInt p.learningIterations) = false ∧
  pyLtQ p.learningIterations 0 = false ∧
  (!isBoolVal p.trackAccuracyWhileFit) = false ∧
  (!checkIsInt p.N) = false ∧
  pyLtQ p.N 0 = false ∧
  (!checkIsFloat p.p_spec) = false ∧
  (pyLtQ p.p_spec 0 || pyGtQ p.p_spec 1) = false ∧
  (!dalOk p.discreteAttributeLimit) = false ∧
  (!isNdarray p.specifiedAttributes) = false ∧
  (!(elemsOf p.specifiedAttributes).all saOk) = false ∧
  (!checkIsFloat p.nu) = false ∧
  (!checkIsFloat p.chi) = false ∧
  (pyLtQ p.chi 0 || pyGtQ p.chi 1) = false ∧
  (!checkIsFloat p.upsilon) = false ∧
  (pyLtQ p.upsilon 0 || pyGtQ p.upsilon 1) = false ∧
  (!checkIsFloat p.theta_GA) = false ∧
  pyLtQ p.theta_GA 0 = false ∧
  (!checkIsInt p.theta_del) = false ∧
  pyLtQ p.theta_del 0 = false ∧
  (!checkIsInt p.theta_sub) = false ∧
  pyLtQ p.theta_sub 0 = false ∧
  (!checkIsFloat p.acc_sub) = false ∧
  (pyLtQ p.acc_sub 0 || pyGtQ p.acc_sub 1) = false ∧
  (!checkIsFloat p.beta) = false ∧
  (!checkIsFloat p.delta) = false ∧
  (!checkIsFloat p.init_fit) = false ∧
  (!checkIsFloat p.fitnessReduction) = false ∧
  (!isBoolVal p.doCorrectSetSubsumption) = false ∧
  (!isBoolVal p.doGASubsumption) = false ∧
  (!(isStrVal p.selectionMethod "tournament" || isStrVal p.selectionMethod "roulette")) = false ∧
  (!checkIsFloat p.theta_sel) = false ∧
  (pyLtQ p.theta_sel 0 || pyGtQ p.theta_sel 1) = false ∧
  (!(isStrVal p.randomSeed "none" || checkIsInt p.randomSeed)) = false ∧
  (!isBoolVal p.matchForMissingness) = false ∧
  (!(isNoneVal p.rebootFilename || isStrAny p.rebootFilename)) = false

/-- The constructor accepts a configuration exactly when every validity
check passes. -/
theorem validateInit_eq_ok_iff (p : InitParams) :
    validateInit p = .ok () ↔ ValidP p := by
  unfold validateInit ValidP
  rw [firstError_eq_ok_iff]
  simp only [initChecks, List.forall_mem_cons, List.not_mem_nil,
    false_implies, implies_true, and_true]

theorem isStrVal_true_iff (v : PyVal) (s : String) :
    isStrVal v s = true ↔ v = .pyStr s := by
  cases v <;> simp [isStrVal]

theorem isBoolVal_true_iff (v : PyVal) :
    isBoolVal v = true ↔ ∃ b, v = .pyBool b := by
  cases v <;> simp [isBoolVal]

theorem pyLtQ_toQ (v : PyVal) (q c : ℚ) (h : toQ? v = some q) :
    pyLtQ v c = decide (q < c) := by
  simp [pyLtQ, h]

theorem pyGtQ_toQ (v : PyVal) (q c : ℚ) (h : toQ? v = some q) :
    pyGtQ v c = decide (c < q) := by
  simp [pyGtQ, h]

/-- A numeric hyperparameter restricted to `[0, 1]` is rejected whenever
its value lies outside `[0, 1]`: the corresponding range check (or an
earlier check) raises. -/
theorem rangeCheck_reject (v : PyVal) (q : ℚ)
    (hv : toQ? v = some q) (hr : q < 0 ∨ 1 < q)
    (h : (pyLtQ v 0 || pyGtQ v 1) = false) : False := by
  rw [pyLtQ_toQ v q 0 hv, pyGtQ_toQ v q 1 hv] at h
  simp only [Bool.or_eq_false_iff, decide_eq_false_iff_not] at h
  rcases hr with hr | hr
  · exact h.1 hr
  · exact h.2 hr

/-- A numeric hyperparameter restricted to be nonnegative is rejected
whenever its value is negative. -/
theorem negCheck_reject (v : PyVal) (q : ℚ)
    (hv : toQ? v = some q) (hr : q < 0)
    (h : pyLtQ v 0 = false) : False := by
  rw [pyLtQ_toQ v q 0 hv] at h
  simp only [decide_eq_false_iff_not] at h
  exact h hr

/-- A hyperparameter required to be a Python `bool` is rejected whenever
it is any non-boolean value. -/
theorem boolCheck_reject (v : PyVal)
    (hb : ∀ b, v ≠ .pyBool b) (h : (!isBoolVal v) = false) : False := by
  have h' : isBoolVal v = true := by simpa using h
  obtain ⟨b, rfl⟩ := (isBoolVal_true_iff v).mp h'
  exact hb b rfl

/-- C5: the constructor raises for every out-of-range or wrong-kind
hyperparameter configuration — construction succeeds on the defaults; it
only succeeds when `selectionMethod` is the string `"tournament"` or
`"roulette"`; it fails whenever `p_spec`, `chi`, `upsilon`, `acc_sub` or
`theta_sel` carries a numeric value outside `[0, 1]`; whenever
`learningIterations`, `N`, `theta_GA`, `theta_del` or `theta_sub` carries a
negative numeric value; and whenever `doCorrectSetSubsumption`,
`doGASubsumption`, `trackAccuracyWhileFit` or `matchForMissingness` is not
a boolean (eLCS.py lines 61-204). -/
theorem init_rejects_invalid_hyperparameters :
    validateInit defaultParams = .ok () ∧
    (∀ p : InitParams, validateInit p = .ok () →
      p.selectionMethod = .pyStr "tournament" ∨ p.selectionMethod = .pyStr "roulette") ∧
    (∀ (p : InitParams) (q : ℚ), toQ? p.p_spec = some q → q < 0 ∨ 1 < q →
      validateInit p ≠ .ok ()) ∧
    (∀ (p : InitParams) (q : ℚ), toQ? p.chi = some q → q < 0 ∨ 1 < q →
      validateInit p ≠ .ok ()) ∧
    (∀ (p : InitParams) (q : ℚ), toQ? p.upsilon = some q → q < 0 ∨ 1 < q →
      validateInit p ≠ .ok ()) ∧
    (∀ (p : InitParams) (q : ℚ), toQ? p.acc_sub = some q → q < 0 ∨ 1 < q →
      validateInit p ≠ .ok ()) ∧
    (∀ (p : InitParams) (q : ℚ), toQ? p.theta_sel = some q → q < 0 ∨ 1 < q →
      validateInit p ≠ .ok ()) ∧
    (∀ (p : InitParams) (q : ℚ), toQ? p.learningIterations = some q → q < 0 →
      validateInit p ≠ .ok ()) ∧
    (∀ (p : InitParams) (q : ℚ), toQ? p.N = some q → q < 0 →
      validateInit p ≠ .ok ()) ∧
    (∀ (p : InitParams) (q : ℚ), toQ? p.theta_GA = some q → q < 0 →
      validateInit p ≠ .ok ()) ∧
    (∀ (p : InitParams) (q : ℚ), toQ? p.theta_del = some q → q < 0 →
      validateInit p ≠ .ok ()) ∧
    (∀ (p : InitParams) (q : ℚ), toQ? p.theta_sub = some q → q < 0 →
      validateInit p ≠ .ok ()) ∧
    (∀ p : InitParams, (∀ b, p.doCorrectSetSubsumption ≠ .pyBool b) →
      validateInit p ≠ .ok ()) ∧
    (∀ p : InitParams, (∀ b, p.doGASubsumption ≠ .pyBool b) →
      validateInit p ≠ .ok ()) ∧
    (∀ p : InitParams, (∀ b, p.trackAccuracyWhileFit ≠ .pyBool b) →
      validateInit p ≠ .ok ()) ∧
    (∀ p : InitParams, (∀ b, p.matchForMissingness ≠ .pyBool b) →
      validateInit p ≠ .ok ()) := by
  refine ⟨by rfl, ?_, ?_, ?_, ?_, ?_, ?_, ?_, ?_, ?_, ?_, ?_, ?_, ?_, ?_, ?_⟩
  · intro p hok
    obtain ⟨-, -, -, -, -, -, -, -, -, -, -, -, -, -, -, -, -, -, -, -, -,
      -, -, -, -, -, -, -, -, h30, -⟩ := (validateInit_eq_ok_iff p).mp hok
    have h' : isStrVal p.selectionMethod "tournament" = true ∨
        isStrVal p.selectionMethod "roulette" = true := by
      cases hT : isStrVal p.selectionMethod "tournament" <;>
        cases hR : isStrVal p.selectionMethod "roulette" <;> simp_all
    rcases h' with h' | h'
    · exact Or.inl ((isStrVal_true_iff _ _).mp h')
    · exact Or.inr ((isStrVal_true_iff _ _).mp h')
  · intro p q hv hr hok
    obtain ⟨-, -, -, -, -, -, h7, -⟩ := (validateInit_eq_ok_iff p).mp hok
    exact rangeCheck_reject _ q hv hr h7
  · intro p q hv hr hok
    obtain ⟨-, -, -, -, -, -, -, -, -, -, -, -, h13, -⟩ :=
      (validateInit_eq_ok_iff p).mp hok
    exact rangeCheck_reject _ q hv hr h13
  · intro p q hv hr hok
    obtain ⟨-, -, -, -, -, -, -, -, -, -, -, -, -, -, h15, -⟩ :=
      (validateInit_eq_ok_iff p).mp hok
    exact rangeCheck_reject _ q hv hr h15
  · intro p q hv hr hok
    obtain ⟨-, -, -, -, -, -, -, -, -, -, -, -, -, -, -, -, -, -, -, -, -,
      -, h23, -⟩ := (validateInit_eq_ok_iff p).mp hok
    exact rangeCheck_reject _ q hv hr h23
  · intro p q hv hr hok
    obtain ⟨-, -, -, -, -, -, -, -, -, -, -, -, -, -, -, -, -, -, -, -, -,
      -, -, -, -, -, -, -, -, -, -, h32, -⟩ :=
      (validateInit_eq_ok_iff p).mp hok
    exact rangeCheck_reject _ q hv hr h32
  · intro p q hv hr hok
    obtain ⟨-, h2, -⟩ := (validateInit_eq_ok_iff p).mp hok
    exact negCheck_reject _ q hv hr h2
  · intro p q hv hr hok
    obtain ⟨-, -, -, -, h5, -⟩ := (validateInit_eq_ok_iff p).mp hok
    exact negCheck_reject _ q hv hr h5
  · intro p q hv hr hok
    obtain ⟨-, -, -, -, -, -, -, -, -, -, -, -, -, -, -, -, h17, -⟩ :=
      (validateInit_eq_ok_iff p).mp hok
    exact negCheck_reject _ q hv hr h17
  · intro p q hv hr hok
    obtain ⟨-, -, -, -, -, -, -, -, -, -, -, -, -, -, -, -, -, -, h19, -⟩ :=
      (validateInit_eq_ok_iff p).mp hok
    exact negCheck_reject _ q hv hr h19
  · intro p q hv hr hok
    obtain ⟨-, -, -, -, -, -, -, -, -, -, -, -, -, -, -, -, -, -, -, -,
      h21, -⟩ := (validateInit_eq_ok_iff p).mp hok
    exact negCheck_reject _ q hv hr h21
  · intro p hb hok
    obtain ⟨-, -, -, -, -, -, -, -, -, -, -, -, -, -, -, -, -, -, -, -, -,
      -, -, -, -, -, -, h28, -⟩ := (validateInit_eq_ok_iff p).mp hok
    exact boolCheck_reject _ hb h28
  · intro p hb hok
    obtain ⟨-, -, -, -, -, -, -, -, -, -, -, -, -, -, -, -, -, -, -, -, -,
      -, -, -, -, -, -, -, h29, -⟩ := (validateInit_eq_ok_iff p).mp hok
    exact boolCheck_reject _ hb h29
  · intro p hb hok
    obtain ⟨-, -, h3, -⟩ := (validateInit_eq_ok_iff p).mp hok
    exact boolCheck_reject _ hb h3
  · intro p hb hok
    obtain ⟨-, -, -, -, -, -, -, -, -, -, -, -, -, -, -, -, -, -, -, -, -,
      -, -, -, -, -, -, -, -, -, -, -, -, h34, -⟩ :=
      (validateInit_eq_ok_iff p).mp hok
    exact boolCheck_reject _ hb h34

/-- Witness for C5: the defaults are accepted, while `p_spec = 2`,
a negative `learningIterations`, a non-boolean `doGASubsumption` and a
misspelled `selectionMethod` are each rejected. -/
theorem init_rejects_invalid_hyperparameters_witness :
    validateInit defaultParams = .ok () ∧
    validateInit { defaultParams with p_spec := .pyFloat 2 } ≠ .ok () ∧
    validateInit { defaultParams with learningIterations := .pyInt (-3) } ≠ .ok () ∧
    validateInit { defaultParams with doGASubsumption := .pyInt 1 } ≠ .ok () ∧
    validateInit { defaultParams with selectionMethod := .pyStr "best" } ≠ .ok () := by
  have h := init_rejects_invalid_hyperparameters
  refine ⟨h.1, ?_, ?_, ?_, ?_⟩
  · exact h.2.2.1 _ 2 rfl (Or.inr (by norm_num))
  · exact h.2.2.2.2.2.2.2.1 _ (-3) rfl (by norm_num)
  · exact h.2.2.2.2.2.2.2.2.2.2.2.2.2.1 _ (fun b => by simp)
  · intro hok
    rcases h.2.1 _ hok with h' | h'
    · injection h' with hs
      exact absurd hs (by decide)
    · injection h' with hs
      exact absurd hs (by decide)

/-- C10: `checkIsInt` accepts any float with zero fractional part, so a
nonnegative integral float is accepted for `learningIterations`, `N`,
`theta_del` and `theta_sub`, even though a `pyFloat` is not of integer
type (eLCS.py lines 240-248 and 61-77). -/
theorem checkIsInt_accepts_integral_floats (q : ℚ)
    (hq : q = ((ratTrunc q : ℤ) : ℚ)) (h0 : 0 ≤ q) :
    checkIsInt (.pyFloat q) = true ∧
    validateInit { defaultParams with learningIterations := .pyFloat q } = .ok () ∧
    validateInit { defaultParams with N := .pyFloat q } = .ok () ∧
    validateInit { defaultParams with theta_del := .pyFloat q } = .ok () ∧
    validateInit { defaultParams with theta_sub := .pyFloat q } = .ok () ∧
    (∀ n : ℤ, PyVal.pyFloat q ≠ .pyInt n) := by
  have hci : checkIsInt (.pyFloat q) = true := by
    simp only [checkIsInt, decide_eq_true_eq]
    exact hq
  have hne : (!checkIsInt (.pyFloat q)) = false := by simp [hci]
  have hlt : pyLtQ (.pyFloat q) 0 = false := by
    simp only [pyLtQ, toQ?, decide_eq_false_iff_not]
    exact not_lt.mpr h0
  refine ⟨hci, ?_, ?_, ?_, ?_, fun n h => PyVal.noConfusion h⟩
  · unfold validateInit initChecks
    dsimp only [defaultParams]
    rw [hne, hlt]
    rfl
  · unfold validateInit initChecks
    dsimp only [defaultParams]
    rw [hne, hlt]
    rfl
  · unfold validateInit initChecks
    dsimp only [defaultParams]
    rw [hne, hlt]
    rfl
  · unfold validateInit initChecks
    dsimp only [defaultParams]
    rw [hne, hlt]
    rfl

/-- Witness for C10: the float `7.0` passes the integer checks. -/
theorem checkIsInt_accepts_integral_floats_witness :
    checkIsInt (.pyFloat 7) = true ∧
    validateInit { defaultParams with learningIterations := .pyFloat 7 } = .ok () := by
  have h := checkIsInt_accepts_integral_floats 7 (by decide) (by decide)
  exact ⟨h.1, h.2.1⟩

/-! ### The training loop (`eLCS.fit` and `eLCS.runIteration`,
eLCS.py lines 258-393)

The per-iteration work is delegated to `ClassifierSet`, `Prediction` and
the timers, whose classes are not part of `eLCS.py`; `runIteration` is
therefore embedded as the sequence of calls it issues (a trace of events),
and the population itself is an abstract state `π` transformed by an
arbitrary step function, so that every theorem below holds for whatever the
delegated components do. -/

/-- One training instance `(state, phenotype)` as returned by
`Environment.getTrainInstance`. -/
structure Instance where
  state : List PyVal
  phen : PyVal

/-- Modelled from the spec: the `OfflineEnvironment` class is not under
`src/`; per §6.3 it "Provides `getTrainInstance() → (state, y)`,
`newInstance()` (advance), and `formatData`".  The environment holds the
training instances and a cursor; `newInstance` advances the cursor,
wrapping to the first instance after the last. -/
structure Env where
  insts : List Instance
  cur : Nat

/-- Modelled from the spec: fetch the current training instance (§6.3). -/
def Env.getTrainInstance (e : Env) : Instance :=
  e.insts.getD e.cur ⟨[], .pyNan⟩

/-- Modelled from the spec: advance to the next instance (§6.3),
wrapping around at the end of the training set. -/
def Env.newInstance (e : Env) : Env :=
  { e with cur := if e.cur + 1 < e.insts.length then e.cur + 1 else 0 }

/-- `OfflineEnvironment(X, y, self)`: the training instances are the rows
of `X` paired with the entries of `y`, starting at the first instance. -/
def Env.ofXy (X : List (List PyVal)) (y : List PyVal) : Env :=
  ⟨(X.zip y).map (fun r => ⟨r.1, r.2⟩), 0⟩

/-- The calls `eLCS.fit` and `eLCS.runIteration` issue against the
environment and the `ClassifierSet` population, in order.  Pure
bookkeeping (timers, `trackingObj` counter reads, `record.addToTracking`)
is omitted: it touches neither the environment nor the population. -/
inductive Ev where
  | fetchInstance (inst : Instance)
  | makeMatchSet (inst : Instance)
  | predictionTrack
  | makeCorrectSet (phen : PyVal)
  | updateSets
  | correctSetSubsumption
  | runGA (state : List PyVal) (phen : PyVal)
  | deletion
  | clearSets
  | advanceInstance

/-- The hyperparameters `runIteration` and the `fit` loop read. -/
structure Hyper where
  learningIterations : Nat
  trackAccuracyWhileFit : Bool
  doCorrectSetSubsumption : Bool

/-- `eLCS.runIteration` (eLCS.py lines 335-393) as the ordered list of the
calls it makes: `makeMatchSet` on the fetched `(state, phenotype)`; the
accuracy-tracking prediction block iff `trackAccuracyWhileFit`;
`makeCorrectSet` on the phenotype; `updateSets`;
`doCorrectSetSubsumption` iff that hyperparameter is set; `runGA`;
`deletion`; the tracking-object reads (not population calls); and finally
`clearSets`, the last statement of the method. -/
def runIterationEvents (h : Hyper) (i : Instance) : List Ev :=
  [Ev.makeMatchSet i] ++
  (if h.trackAccuracyWhileFit then [Ev.predictionTrack] else []) ++
  [Ev.makeCorrectSet i.phen, Ev.updateSets] ++
  (if h.doCorrectSetSubsumption then [Ev.correctSetSubsumption] else []) ++
  [Ev.runGA i.state i.phen, Ev.deletion, Ev.clearSets]

/-- The events that are operations on the `ClassifierSet` population
(as opposed to environment access or the tracking-prediction block). -/
def isPopulationOp : Ev → Bool
  | .fetchInstance _ => false
  | .predictionTrack => false
  | .advanceInstance => false
  | _ => true

/-- The estimator state that `fit` manipulates: the `hasTrained` flag, the
abstract population `π`, the PRNG state (an integer seed, threaded
explicitly: the Python code seeds the global `random` module from
`randomSeed` in `__init__`), the iteration counter `explorIter` and the
environment. -/
structure TrainState (π : Type) where
  hasTrained : Bool
  pop : π
  rng : Int
  explorIter : Nat
  env : Env

/-- The `while self.explorIter < self.learningIterations` loop of
`eLCS.fit` (eLCS.py lines 299-330), run for its remaining `fuel`
iterations: fetch the current instance, run `runIteration` (whose effect
on the abstract population and PRNG is the given `step`), increment
`explorIter` and advance the environment.  The trace of issued calls is
returned alongside the final state. -/
def fitLoop {π : Type} (step : π → Int → Instance → Nat → π × Int)
    (h : Hyper) : Nat → TrainState π → TrainState π × List Ev
  | 0, m => (m, [])
  | k + 1, m =>
      let i := m.env.getTrainInstance
      let pr := step m.pop m.rng i m.explorIter
      let rest := fitLoop step h k
        { m with pop := pr.1, rng := pr.2, explorIter := m.explorIter + 1,
                 env := m.env.newInstance }
      (rest.1,
        (Ev.fetchInstance i :: (runIterationEvents h i ++ [Ev.advanceInstance]))
          ++ rest.2)

/-- The per-value test of the `X` loop in `eLCS.fit` (eLCS.py lines
273-276): `np.isnan(value)` raising (non-numeric value) fails the check;
a `nan` is skipped; anything else must survive `float(value)`. -/
def xValueOk (v : PyVal) : Bool :=
  match isnanOk v with
  | some true => true
  | some false => floatOk v
  | none => false

/-- The input check of `eLCS.fit` (eLCS.py lines 271-281): every value of
`X` must be `nan` or float-convertible, and every value of `y` must
survive `float(value)` — note that `float(nan)` succeeds, so a `nan`
in `y` passes. -/
def checkXyNumeric (X : List (List PyVal)) (y : List PyVal) :
    Except String Unit :=
  if X.all (fun row => row.all xValueOk) && y.all floatOk then .ok ()
  else .error "X and y must be fully numeric"

/-- `eLCS.fit` (eLCS.py lines 258-333), for a model constructed without a
reboot file: the trained-model guard; the numeric input check; the
construction of the `OfflineEnvironment` and the reset of `explorIter`;
the training loop; and finally `hasTrained := true`, returning the
estimator itself.  Tracking-only work inside the loop (accuracy averages,
`record.addToTracking`, timers) is omitted from the model, and
`saveFinalMetrics` is modelled separately with `rebootPopulation`. -/
def fitModel {π : Type} (step : π → Int → Instance → Nat → π × Int)
    (h : Hyper) (X : List (List PyVal)) (y : List PyVal)
    (m : TrainState π) : Except String (TrainState π × List Ev) :=
  if m.hasTrained then .error "Cannot train already trained model again"
  else
    match checkXyNumeric X y with
    | .error e => .error e
    | .ok _ =>
        let res := fitLoop step h h.learningIterations
          { m with env := Env.ofXy X y, explorIter := 0 }
        .ok ({ res.1 with hasTrained := true }, res.2)

/-- The environment after `t` calls to `newInstance`. -/
def envIterate (e : Env) : Nat → Env
  | 0 => e
  | k + 1 => envIterate e.newInstance k

/-- The call trace of `n` training iterations started on environment `e`:
for iteration `t`, fetch the current instance, run the iteration
protocol, advance. -/
def expectedTrace (h : Hyper) (e : Env) (n : Nat) : List Ev :=
  ((List.range n).map (fun t =>
    Ev.fetchInstance (envIterate e t).getTrainInstance ::
      (runIterationEvents h (envIterate e t).getTrainInstance ++
        [Ev.advanceInstance]))).join

theorem expectedTrace_zero (h : Hyper) (e : Env) :
    expectedTrace h e 0 = [] := rfl

theorem expectedTrace_succ (h : Hyper) (e : Env) (n : Nat) :
    expectedTrace h e (n + 1) =
      (Ev.fetchInstance e.getTrainInstance ::
        (runIterationEvents h e.getTrainInstance ++ [Ev.advanceInstance]))
        ++ expectedTrace h e.newInstance n := by
  unfold expectedTrace
  rw [List.range_succ_eq_map, List.map_cons, List.map_map]
  have hfg : ((fun t => Ev.fetchInstance (envIterate e t).getTrainInstance ::
        (runIterationEvents h (envIterate e t).getTrainInstance ++
          [Ev.advanceInstance])) ∘ Nat.succ) =
      (fun t => Ev.fetchInstance (envIterate e.newInstance t).getTrainInstance ::
        (runIterationEvents h (envIterate e.newInstance t).getTrainInstance ++
          [Ev.advanceInstance])) := by
    funext t
    rfl
  rw [hfg]
  rfl

theorem fitLoop_trace {π : Type} (step : π → Int → Instance → Nat → π × Int)
    (h : Hyper) :
    ∀ (k : Nat) (m : TrainState π),
      (fitLoop step h k m).2 = expectedTrace h m.env k ∧
      (fitLoop step h k m).1.hasTrained = m.hasTrained := by
  intro k
  induction k with
  | zero => intro m; exact ⟨rfl, rfl⟩
  | succ k ih =>
      intro m
      have h1 := ih { m with pop := (step m.pop m.rng m.env.getTrainInstance m.explorIter).1,
                             rng := (step m.pop m.rng m.env.getTrainInstance m.explorIter).2,
                             explorIter := m.explorIter + 1,
                             env := m.env.newInstance }
      refine ⟨?_, ?_⟩
      · show (Ev.fetchInstance m.env.getTrainInstance ::
            (runIterationEvents h m.env.getTrainInstance ++ [Ev.advanceInstance]))
              ++ _ = _
        rw [h1.1, expectedTrace_succ]
      · exact h1.2

/-- Is an event the fetch of a training instance? -/
def isFetch : Ev → Bool
  | .fetchInstance _ => true
  | _ => false

theorem countFetch_runIterationEvents (h : Hyper) (i : Instance) :
    (runIterationEvents h i).countP isFetch = 0 := by
  cases hT : h.trackAccuracyWhileFit <;>
    cases hD : h.doCorrectSetSubsumption <;>
      simp [runIterationEvents, hT, hD, isFetch, List.countP_cons]

theorem countFetch_expectedTrace (h : Hyper) :
    ∀ (n : Nat) (e : Env), (expectedTrace h e n).countP isFetch = n := by
  intro n
  induction n with
  | zero => intro e; rfl
  | succ n ih =>
      intro e
      rw [expectedTrace_succ]
      simp [List.countP_cons, List.countP_append, isFetch,
        countFetch_runIterationEvents, ih]

/-- C1: `runIteration` issues, in this exact order, `makeMatchSet` on the
fetched `(state, phenotype)`, `makeCorrectSet` on the phenotype,
`updateSets`, `doCorrectSetSubsumption` iff that hyperparameter is true,
`runGA`, `deletion`, and finally `clearSets`, which is its last action
(eLCS.py lines 335-393). -/
theorem runIteration_protocol (h : Hyper) (i : Instance) :
    (runIterationEvents h i).filter isPopulationOp =
      [Ev.makeMatchSet i, Ev.makeCorrectSet i.phen, Ev.updateSets] ++
        (if h.doCorrectSetSubsumption then [Ev.correctSetSubsumption] else [])
        ++ [Ev.runGA i.state i.phen, Ev.deletion, Ev.clearSets] ∧
    (runIterationEvents h i).getLast? = some Ev.clearSets ∧
    (Ev.correctSetSubsumption ∈ runIterationEvents h i ↔
      h.doCorrectSetSubsumption = true) := by
  cases hT : h.trackAccuracyWhileFit <;>
    cases hD : h.doCorrectSetSubsumption <;>
      refine ⟨by simp [runIterationEvents, hT, hD, isPopulationOp],
        by simp only [runIterationEvents, hT, hD, if_true, if_false]; rfl,
        ?_⟩ <;>
        simp [runIterationEvents, hT, hD]

/-- C2: on a fresh model with numerically valid inputs, `fit` runs exactly
`learningIterations` exploration iterations — its trace is, for each
iteration `t`, the fetch of the current training instance, the iteration
protocol, and the advance of the environment — and afterwards sets
`hasTrained` and returns the estimator (eLCS.py lines 299-333). -/
theorem fit_runs_learning_iterations {π : Type}
    (step : π → Int → Instance → Nat → π × Int) (h : Hyper)
    (X : List (List PyVal)) (y : List PyVal) (m : TrainState π)
    (hm : m.hasTrained = false) (hxy : checkXyNumeric X y = .ok ()) :
    fitModel step h X y m =
      .ok ({ (fitLoop step h h.learningIterations
                { m with env := Env.ofXy X y, explorIter := 0 }).1 with
              hasTrained := true },
            expectedTrace h (Env.ofXy X y) h.learningIterations) ∧
    (expectedTrace h (Env.ofXy X y) h.learningIterations).countP isFetch =
      h.learningIterations ∧
    (∀ mF tr, fitModel step h X y m = .ok (mF, tr) →
      mF.hasTrained = true) := by
  have hfm : fitModel step h X y m =
      .ok ({ (fitLoop step h h.learningIterations
                { m with env := Env.ofXy X y, explorIter := 0 }).1 with
              hasTrained := true },
            expectedTrace h (Env.ofXy X y) h.learningIterations) := by
    unfold fitModel
    rw [if_neg (show ¬(m.hasTrained = true) by simp [hm]), hxy]
    show Except.ok
        ({ (fitLoop step h h.learningIterations
              { m with env := Env.ofXy X y, explorIter := 0 }).1 with
            hasTrained := true },
          (fitLoop step h h.learningIterations
            { m with env := Env.ofXy X y, explorIter := 0 }).2) = _
    rw [(fitLoop_trace step h h.learningIterations _).1]
  refine ⟨hfm, countFetch_expectedTrace h _ _, ?_⟩
  intro mF tr heq
  rw [hfm] at heq
  injection heq with hpair
  rw [Prod.mk.injEq] at hpair
  obtain ⟨h2, -⟩ := hpair
  rw [← h2]

/-- Witness for C2: a one-iteration fit on a fresh model succeeds. -/
theorem fit_runs_learning_iterations_witness :
    (fitModel (fun (p : Unit) (r : Int) _ _ => (p, r)) ⟨1, false, false⟩
      [[.pyInt 0]] [.pyInt 1] ⟨false, (), 0, 0, ⟨[], 0⟩⟩).isOk = true := by
  have h := fit_runs_learning_iterations
    (fun (p : Unit) (r : Int) _ _ => (p, r)) ⟨1, false, false⟩
    [[.pyInt 0]] [.pyInt 1] ⟨false, (), 0, 0, ⟨[], 0⟩⟩ rfl rfl
  rw [h.1]
  rfl

/-! ### Input validation at `fit` entry (C3) -/

theorem checkXy_error_iff (X : List (List PyVal)) (y : List PyVal) :
    checkXyNumeric X y = .error "X and y must be fully numeric" ↔
      (∃ row ∈ X, ∃ v ∈ row, xValueOk v = false) ∨
      (∃ v ∈ y, floatOk v = false) := by
  unfold checkXyNumeric
  by_cases hb : (X.all (fun row => row.all xValueOk) && y.all floatOk) = true
  · rw [if_pos hb]
    rw [Bool.and_eq_true] at hb
    constructor
    · intro hcontr
      exact Except.noConfusion hcontr
    · rintro (⟨row, hrow, v, hv, hbad⟩ | ⟨v, hv, hbad⟩)
      · have h1 := (List.all_eq_true.mp hb.1) row hrow
        have h2 := (List.all_eq_true.mp h1) v hv
        rw [hbad] at h2
        exact Bool.noConfusion h2
      · have h2 := (List.all_eq_true.mp hb.2) v hv
        rw [hbad] at h2
        exact Bool.noConfusion h2
  · rw [if_neg hb]
    constructor
    · intro _
      have hbf : (X.all (fun row => row.all xValueOk) && y.all floatOk) = false :=
        Bool.eq_false_iff.mpr hb
      rw [Bool.and_eq_false_iff] at hbf
      rcases hbf with hbf | hbf
      · obtain ⟨row, hrow, hfalse⟩ := List.all_eq_false.mp hbf
        have : row.all xValueOk = false := Bool.eq_false_iff.mpr hfalse
        obtain ⟨v, hv, hvf⟩ := List.all_eq_false.mp this
        exact Or.inl ⟨row, hrow, v, hv, Bool.eq_false_iff.mpr hvf⟩
      · obtain ⟨v, hv, hvf⟩ := List.all_eq_false.mp hbf
        exact Or.inr ⟨v, hv, Bool.eq_false_iff.mpr hvf⟩
    · intro _
      rfl

/-- C3 counterexample: `fit` does not raise on a `NaN` phenotype — the
`y` check is `float(value)`, and `float(nan)` succeeds, so with
`X = [[0]]`, `y = [nan]` the input check passes and `fit` completes
normally instead of raising. -/
theorem fit_accepts_nan_y :
    checkXyNumeric [[.pyInt 0]] [.pyNan] = .ok () ∧
    fitModel (fun (p : Unit) (r : Int) _ _ => (p, r)) ⟨0, false, false⟩
        [[.pyInt 0]] [.pyNan] ⟨false, (), 0, 0, ⟨[], 0⟩⟩ =
      .ok (⟨true, (), 0, 0, ⟨[⟨[.pyInt 0], .pyNan⟩], 0⟩⟩, []) :=
  ⟨rfl, rfl⟩

/-- C3 (amended): on a fresh model, `fit` raises
`"X and y must be fully numeric"` at entry exactly when `X` contains a
value that is neither numeric nor `NaN`, or `y` contains a value that
`float(…)` cannot convert; a `NaN` in `y` is float-convertible and passes
the check undetected.  The check sits before the `OfflineEnvironment`
construction, so no training state exists when it raises (eLCS.py lines
271-284). -/
theorem fit_input_validation {π : Type}
    (step : π → Int → Instance → Nat → π × Int) (h : Hyper)
    (X : List (List PyVal)) (y : List PyVal) (m : TrainState π)
    (hm : m.hasTrained = false) :
    fitModel step h X y m = .error "X and y must be fully numeric" ↔
      (∃ row ∈ X, ∃ v ∈ row, xValueOk v = false) ∨
      (∃ v ∈ y, floatOk v = false) := by
  have hiff := checkXy_error_iff X y
  unfold fitModel
  rw [if_neg (show ¬(m.hasTrained = true) by simp [hm])]
  cases hxy : checkXyNumeric X y with
  | error e =>
      rw [hxy] at hiff
      simpa using hiff
  | ok u =>
      cases u
      rw [hxy] at hiff
      constructor
      · intro h'
        exact Except.noConfusion h'
      · intro hr
        exact absurd (hiff.mpr hr) (fun hc => Except.noConfusion hc)

/-- Witness for C3 (amended): a string inside `X` makes `fit` raise. -/
theorem fit_input_validation_witness :
    fitModel (fun (p : Unit) (r : Int) _ _ => (p, r)) ⟨0, false, false⟩
        [[.pyStr "abc"]] [.pyInt 0] ⟨false, (), 0, 0, ⟨[], 0⟩⟩ =
      .error "X and y must be fully numeric" :=
  (fit_input_validation (fun (p : Unit) (r : Int) _ _ => (p, r))
      ⟨0, false, false⟩ [[.pyStr "abc"]] [.pyInt 0]
      ⟨false, (), 0, 0, ⟨[], 0⟩⟩ rfl).mpr
    (Or.inl ⟨[.pyStr "abc"], by simp, .pyStr "abc", by simp, rfl⟩)

/-! ### Trained-model guards (C4) -/

/-- `eLCS.exportIterationTrackingData` (eLCS.py lines 497-501): raises
unless the model has been trained.  The success branch delegates to
`IterationRecord.exportTrackingToCSV` (a class not under `src/`) and is
abstracted to `.ok ()`. -/
def exportIterationTrackingData {π : Type} (m : TrainState π) :
    Except String Unit :=
  if m.hasTrained then .ok ()
  else .error "There is no tracking data to export, as the eLCS model has not been trained"

/-- `eLCS.exportFinalRulePopulation` (eLCS.py lines 503-510): raises
unless trained; on success delegates to `record.exportPopDCAL` or
`record.exportPop` according to `DCAL`. -/
def exportFinalRulePopulation {π : Type} (m : TrainState π) (dcal : Bool) :
    Except String Unit :=
  if m.hasTrained then (if dcal then .ok () else .ok ())
  else .error "There is no rule population to export, as the eLCS model has not been trained"

/-- `eLCS.getFinalAccuracy` (eLCS.py lines 512-517): raises unless
trained; on success scores the saved training data (delegated). -/
def getFinalAccuracy {π : Type} (m : TrainState π) : Except String Unit :=
  if m.hasTrained then .ok ()
  else .error "There is no final training accuracy to return, as the XCS model has not been trained"

/-- `eLCS.getFinalInstanceCoverage` (eLCS.py lines 519-531): raises unless
trained; on success counts covered instances (delegated). -/
def getFinalInstanceCoverage {π : Type} (m : TrainState π) :
    Except String Unit :=
  if m.hasTrained then .ok ()
  else .error "There is no final instance coverage to return, as the eLCS model has not been trained"

/-- C4: calling `fit` on a trained model raises immediately — the guard is
the first statement of `fit`, so in this pure embedding the error result
carries no successor state and the trained population is untouched — and
each export/accuracy/coverage routine raises when the model has not been
trained (eLCS.py lines 267-269 and 497-531). -/
theorem trained_model_guards {π : Type}
    (step : π → Int → Instance → Nat → π × Int) (h : Hyper)
    (X : List (List PyVal)) (y : List PyVal) (m : TrainState π) :
    (m.hasTrained = true →
      fitModel step h X y m = .error "Cannot train already trained model again") ∧
    (m.hasTrained = false →
      exportIterationTrackingData m =
        .error "There is no tracking data to export, as the eLCS model has not been trained" ∧
      (∀ dcal, exportFinalRulePopulation m dcal =
        .error "There is no rule population to export, as the eLCS model has not been trained") ∧
      getFinalAccuracy m =
        .error "There is no final training accuracy to return, as the XCS model has not been trained" ∧
      getFinalInstanceCoverage m =
        .error "There is no final instance coverage to return, as the eLCS model has not been trained") := by
  constructor
  · intro ht
    unfold fitModel
    rw [if_pos (by rw [ht])]
  · intro ht
    refine ⟨?_, fun dcal => ?_, ?_, ?_⟩ <;>
      simp [exportIterationTrackingData, exportFinalRulePopulation,
        getFinalAccuracy, getFinalInstanceCoverage, ht]

/-- Witness for C4: a trained model rejects `fit`; an untrained model
rejects the export routine. -/
theorem trained_model_guards_witness :
    fitModel (fun (p : Unit) (r : Int) _ _ => (p, r)) ⟨1, false, false⟩
        [[.pyInt 0]] [.pyInt 1] ⟨true, (), 0, 0, ⟨[], 0⟩⟩ =
      .error "Cannot train already trained model again" ∧
    exportIterationTrackingData (⟨false, (), 0, 0, ⟨[], 0⟩⟩ : TrainState Unit) =
      .error "There is no tracking data to export, as the eLCS model has not been trained" := by
  have h1 := (trained_model_guards (fun (p : Unit) (r : Int) _ _ => (p, r))
    ⟨1, false, false⟩ [[.pyInt 0]] [.pyInt 1] ⟨true, (), 0, 0, ⟨[], 0⟩⟩).1 rfl
  have h2 := ((trained_model_guards (fun (p : Unit) (r : Int) _ _ => (p, r))
    ⟨1, false, false⟩ [[.pyInt 0]] [.pyInt 1]
    (⟨false, (), 0, 0, ⟨[], 0⟩⟩ : TrainState Unit)).2 rfl).1
  exact ⟨h1, h2⟩

/-! ### Determinism of training (C7) -/

/-- `eLCS.__init__` seeds the global PRNG from `randomSeed`
(eLCS.py lines 188-196); modelled as the threaded `rng` state being the
seed, with the fresh estimator untrained and at iteration 0. -/
def constructModel {π : Type} (initPop : π) (seed : Int) : TrainState π :=
  { hasTrained := false, pop := initPop, rng := seed,
    explorIter := 0, env := ⟨[], 0⟩ }

/-- A construct-then-fit run: `eLCS(randomSeed=seed).fit(X, y)`. -/
def constructThenFit {π : Type} (step : π → Int → Instance → Nat → π × Int)
    (h : Hyper) (initPop : π) (seed : Int)
    (X : List (List PyVal)) (y : List PyVal) :
    Except String (TrainState π × List Ev) :=
  fitModel step h X y (constructModel initPop seed)

/-- C7: training is a deterministic function of the inputs, the seed and
the hyperparameters — the only stochastic source is the PRNG, which
`__init__` seeds from `randomSeed`, so two construct-then-fit runs with
equal seeds, equal `(X, y)` and equal hyperparameters produce identical
populations (eLCS.py lines 188-196 and 299-330). -/
theorem training_deterministic {π : Type}
    (step : π → Int → Instance → Nat → π × Int) (h : Hyper) (initPop : π)
    (s1 s2 : Int) (X1 X2 : List (List PyVal)) (y1 y2 : List PyVal)
    (hs : s1 = s2) (hX : X1 = X2) (hy : y1 = y2) :
    (constructThenFit step h initPop s1 X1 y1).map (fun r => r.1.pop) =
      (constructThenFit step h initPop s2 X2 y2).map (fun r => r.1.pop) := by
  subst hs
  subst hX
  subst hy
  rfl

/-- Witness for C7 at seed 42 on a one-instance data set. -/
theorem training_deterministic_witness :
    (constructThenFit (fun (p : Unit) (r : Int) _ _ => (p, r))
        ⟨1, false, false⟩ () 42 [[.pyInt 0]] [.pyInt 1]).map (fun r => r.1.pop) =
      (constructThenFit (fun (p : Unit) (r : Int) _ _ => (p, r))
        ⟨1, false, false⟩ () 42 [[.pyInt 0]] [.pyInt 1]).map (fun r => r.1.pop) :=
  training_deterministic (fun (p : Unit) (r : Int) _ _ => (p, r))
    ⟨1, false, false⟩ () 42 42 [[.pyInt 0]] [[.pyInt 0]] [.pyInt 1] [.pyInt 1]
    rfl rfl rfl

/-! ### Inference (`eLCS.predict`, `eLCS.predict_proba`, `eLCS.score`,
eLCS.py lines 436-495)

The `ClassifierSet` and `Prediction` classes are not under `src/`; the
classifier type is held abstract as `α`, the per-classifier match test
and the vote aggregation of `Prediction` are parameters, and
`makeEvalMatchSet` / `clearSets` are modelled from the spec. -/

/-- The `ClassifierSet` seen by the inference code: the macro population,
its micro size, and the transient index sets. -/
structure CSet (α : Type) where
  popSet : List α
  microPopSize : Nat
  matchSet : List Nat
  correctSet : List Nat

/-- Modelled from the spec: `ClassifierSet.makeEvalMatchSet` is not under
`src/`; per §4.4 the eval pathway is the "same match-set construction
WITHOUT covering" — `matchSet` becomes the indices of the matching
classifiers and `popSet` is untouched. -/
def makeEvalMatchSet {α : Type} [Inhabited α]
    (matchFn : α → List PyVal → Bool) (state : List PyVal) (cs : CSet α) :
    CSet α :=
  let ms := (List.range cs.popSet.length).filter
    (fun idx => matchFn (cs.popSet.getD idx default) state)
  { cs with matchSet := ms }

/-- Modelled from the spec: `ClassifierSet.clearSets` (§4.2.7) empties
`matchSet` and `correctSet` and "does not touch `popSet`". -/
def clearSets {α : Type} (cs : CSet α) : CSet α :=
  { cs with matchSet := [], correctSet := [] }

/-- The eval match set of a single row, as indices into the population. -/
def evalMatchIdx {α : Type} [Inhabited α]
    (matchFn : α → List PyVal → Bool) (pop : List α) (row : List PyVal) :
    List Nat :=
  (List.range pop.length).filter (fun idx => matchFn (pop.getD idx default) row)

/-- The row loop shared by `eLCS.predict` and `eLCS.predict_proba`
(eLCS.py lines 452-461 and 480-489): for each row, build the eval match
set, aggregate a result from it (`Prediction(self, population)` followed
by `getDecision` for `predict` or `getProbabilities` for `predict_proba`,
both abstracted as `getDecision : List α → List Nat → δ` since the
`Prediction` class is not under `src/`), append it, and clear the
transient sets before the next row. -/
def predictRows {α δ : Type} [Inhabited α]
    (matchFn : α → List PyVal → Bool)
    (getDecision : List α → List Nat → δ) (cs : CSet α) :
    List (List PyVal) → List δ × CSet α
  | [] => ([], cs)
  | row :: rest =>
      let cs1 := makeEvalMatchSet matchFn row cs
      let d := getDecision cs1.popSet cs1.matchSet
      let cs2 := clearSets cs1
      let r := predictRows matchFn getDecision cs2 rest
      (d :: r.1, r.2)

/-- The per-value numeric check `eLCS.predict` and `eLCS.predict_proba`
run on `X` (eLCS.py lines 444-450 and 472-478), identical to the `X` part
of the `fit` check. -/
def checkXNumeric (X : List (List PyVal)) : Bool :=
  X.all (fun row => row.all xValueOk)

/-- `eLCS.predict` / `eLCS.predict_proba` (eLCS.py lines 436-490):
validate `X`, then run the row loop and return one result per row. -/
def predictModel {α δ : Type} [Inhabited α]
    (matchFn : α → List PyVal → Bool)
    (getDecision : List α → List Nat → δ) (cs : CSet α)
    (X : List (List PyVal)) : Except String (List δ) :=
  if checkXNumeric X then .ok (predictRows matchFn getDecision cs X).1
  else .error "X must be fully numeric"

theorem predictRows_fst {α δ : Type} [Inhabited α]
    (matchFn : α → List PyVal → Bool)
    (getDecision : List α → List Nat → δ) :
    ∀ (X : List (List PyVal)) (cs : CSet α),
      (predictRows matchFn getDecision cs X).1 =
        X.map (fun row =>
          getDecision cs.popSet (evalMatchIdx matchFn cs.popSet row)) := by
  intro X
  induction X with
  | nil => intro cs; rfl
  | cons row rest ih =>
      intro cs
      simp only [predictRows]
      rw [ih]
      simp [clearSets, makeEvalMatchSet, evalMatchIdx]

theorem predictRows_snd {α δ : Type} [Inhabited α]
    (matchFn : α → List PyVal → Bool)
    (getDecision : List α → List Nat → δ) :
    ∀ (X : List (List PyVal)) (cs : CSet α),
      cs.matchSet = [] → cs.correctSet = [] →
      (predictRows matchFn getDecision cs X).2 = cs := by
  intro X
  induction X with
  | nil => intro cs _ _; rfl
  | cons row rest ih =>
      intro cs hM hC
      obtain ⟨pop, micro, ms, corr⟩ := cs
      simp only at hM hC
      subst hM
      subst hC
      exact ih _ rfl rfl

theorem predictRows_length {α δ : Type} [Inhabited α]
    (matchFn : α → List PyVal → Bool)
    (getDecision : List α → List Nat → δ)
    (cs : CSet α) (X : List (List PyVal)) :
    (predictRows matchFn getDecision cs X).1.length = X.length := by
  rw [predictRows_fst]
  exact List.length_map X _

/-- C6: `predict` and `predict_proba` process the rows of `X`
independently — each row's result is a function of the population and that
row alone, computed from the eval match set (which performs no covering:
the population is unchanged), the transient sets are cleared between rows,
and one result per row of `X` is returned.  The abstract aggregation
`getDecision` covers both `Prediction.getDecision` (`predict`) and
`Prediction.getProbabilities` (`predict_proba`), whose class is not under
`src/` (eLCS.py lines 436-490). -/
theorem predict_rows_independent {α δ : Type} [Inhabited α]
    (matchFn : α → List PyVal → Bool)
    (getDecision : List α → List Nat → δ)
    (cs : CSet α) (X : List (List PyVal))
    (hM : cs.matchSet = []) (hC : cs.correctSet = []) :
    (predictRows matchFn getDecision cs X).1 =
      X.map (fun row =>
        getDecision cs.popSet (evalMatchIdx matchFn cs.popSet row)) ∧
    (predictRows matchFn getDecision cs X).1.length = X.length ∧
    (predictRows matchFn getDecision cs X).2 = cs ∧
    (checkXNumeric X = true →
      predictModel matchFn getDecision cs X =
        .ok (X.map (fun row =>
          getDecision cs.popSet (evalMatchIdx matchFn cs.popSet row)))) := by
  refine ⟨predictRows_fst matchFn getDecision X cs,
    predictRows_length matchFn getDecision cs X,
    predictRows_snd matchFn getDecision X cs hM hC, ?_⟩
  intro hX
  unfold predictModel
  rw [if_pos (by rw [hX]), predictRows_fst]

/-- Witness for C6 on a one-classifier population and one row. -/
theorem predict_rows_independent_witness :
    (predictRows (fun (_ : Unit) _ => true) (fun _ ms => ms.length)
        ⟨[()], 1, [], []⟩ [[.pyInt 0]]).2 = ⟨[()], 1, [], []⟩ ∧
    (predictRows (fun (_ : Unit) _ => true) (fun _ ms => ms.length)
        ⟨[()], 1, [], []⟩ [[.pyInt 0]]).1.length = 1 := by
  have h := predict_rows_independent (fun (_ : Unit) _ => true)
    (fun _ ms => ms.length) ⟨[()], 1, [], []⟩ [[.pyInt 0]] rfl rfl
  exact ⟨h.2.2.1, h.2.1⟩

/-! ### `eLCS.score` returns balanced accuracy (C9) -/

/-- The plain fraction of correct predictions (what `score` would return
if it used ordinary accuracy). -/
def plainAccuracy (yT yP : List ℚ) : ℚ :=
  ((yT.zip yP).countP (fun pr => decide (pr.1 = pr.2)) : ℚ) /
    (yT.length : ℚ)

/-- Modelled from the spec: `sklearn.metrics.balanced_accuracy_score`
(an external library call at eLCS.py line 495), via its documented
definition: compute the confusion matrix over the labels occurring in
`y_true` or `y_pred`, take each class's recall `diagonal / row-sum`, drop
classes with empty rows (whose recall is `NaN`), and average. -/
def balancedAccuracyScore (yT yP : List ℚ) : ℚ :=
  (((yT ++ yP).dedup.filter
      (fun k => (yT.zip yP).countP (fun pr => decide (pr.1 = k)) != 0)).map
    (fun k =>
      ((yT.zip yP).countP (fun pr => decide (pr.1 = k) && decide (pr.2 = k)) : ℚ) /
        ((yT.zip yP).countP (fun pr => decide (pr.1 = k)) : ℚ))).sum /
  (((yT ++ yP).dedup.filter
      (fun k => (yT.zip yP).countP (fun pr => decide (pr.1 = k)) != 0)).length : ℚ)

/-- The recall of class `k`: correctly predicted `k`-instances over true
`k`-instances. -/
def recallOfClass (yT yP : List ℚ) (k : ℚ) : ℚ :=
  ((yT.zip yP).countP (fun pr => decide (pr.1 = k) && decide (pr.2 = k)) : ℚ) /
    (yT.countP (fun v => decide (v = k)) : ℚ)

/-- Macro-averaged per-class recall over the classes of `yT`. -/
def macroAvgRecall (yT yP : List ℚ) : ℚ :=
  ((yT.dedup.map (recallOfClass yT yP)).sum) / (yT.dedup.length : ℚ)

/-- `eLCS.score` (eLCS.py lines 493-495): `predict(X)` followed by
`balanced_accuracy_score(y, predList)`. -/
def scoreModel {α : Type} [Inhabited α]
    (matchFn : α → List PyVal → Bool)
    (getDecision : List α → List Nat → ℚ) (cs : CSet α)
    (X : List (List PyVal)) (y : List ℚ) : ℚ :=
  balancedAccuracyScore y (predictRows matchFn getDecision cs X).1

theorem countP_fst_zip (yT yP : List ℚ) (hlen : yT.length = yP.length)
    (k : ℚ) :
    (yT.zip yP).countP (fun pr => decide (pr.1 = k)) =
      yT.countP (fun v => decide (v = k)) := by
  have hmapfst : (yT.zip yP).map Prod.fst = yT :=
    List.map_fst_zip yT yP (le_of_eq hlen)
  calc (yT.zip yP).countP (fun pr => decide (pr.1 = k))
      = ((yT.zip yP).map Prod.fst).countP (fun v => decide (v = k)) := by
        rw [List.countP_map]
        rfl
    _ = yT.countP (fun v => decide (v = k)) := by rw [hmapfst]

theorem balancedAccuracy_eq_macroAvgRecall (yT yP : List ℚ)
    (hlen : yT.length = yP.length) :
    balancedAccuracyScore yT yP = macroAvgRecall yT yP := by
  have hrow := countP_fst_zip yT yP hlen
  have hsup : ∀ k : ℚ,
      (((yT.zip yP).countP (fun pr => decide (pr.1 = k)) != 0) = true) ↔
        k ∈ yT := by
    intro k
    rw [hrow k]
    constructor
    · intro hne
      have h0 : yT.countP (fun v => decide (v = k)) ≠ 0 := by simpa using hne
      have hpos : 0 < yT.countP (fun v => decide (v = k)) :=
        Nat.pos_of_ne_zero h0
      obtain ⟨a, ha, hak⟩ := List.countP_pos_iff.mp hpos
      rw [decide_eq_true_eq] at hak
      rwa [hak] at ha
    · intro hk
      have hpos : 0 < yT.countP (fun v => decide (v = k)) :=
        List.countP_pos_iff.mpr ⟨k, hk, by simp⟩
      simpa using Nat.pos_iff_ne_zero.mp hpos
  have hperm : List.Perm
      ((yT ++ yP).dedup.filter
        (fun k => (yT.zip yP).countP (fun pr => decide (pr.1 = k)) != 0))
      yT.dedup := by
    apply (List.perm_ext_iff_of_nodup
      ((List.nodup_dedup _).filter _) (List.nodup_dedup _)).mpr
    intro a
    rw [List.mem_filter, List.mem_dedup, List.mem_dedup, List.mem_append]
    constructor
    · rintro ⟨-, hcnt⟩
      exact (hsup a).mp hcnt
    · intro ha
      exact ⟨Or.inl ha, (hsup a).mpr ha⟩
  have hfun : (fun k : ℚ =>
      ((yT.zip yP).countP (fun pr => decide (pr.1 = k) && decide (pr.2 = k)) : ℚ) /
        ((yT.zip yP).countP (fun pr => decide (pr.1 = k)) : ℚ)) =
      recallOfClass yT yP := by
    funext k
    unfold recallOfClass
    rw [hrow k]
  unfold balancedAccuracyScore macroAvgRecall
  rw [hfun, (hperm.map (recallOfClass yT yP)).sum_eq, hperm.length_eq]

/-- C9: `score(X, y)` returns the balanced accuracy — the macro-averaged
per-class recall — of `predict(X)` against `y`, which differs from the
plain fraction of correct predictions (eLCS.py lines 493-495; the
`balanced_accuracy_score` call is the external sklearn function, modelled
from its documented definition). -/
theorem score_is_balanced_accuracy {α : Type} [Inhabited α]
    (matchFn : α → List PyVal → Bool)
    (getDecision : List α → List Nat → ℚ) (cs : CSet α)
    (X : List (List PyVal)) (y : List ℚ)
    (hlen : y.length = X.length) :
    scoreModel matchFn getDecision cs X y =
      macroAvgRecall y (predictRows matchFn getDecision cs X).1 ∧
    balancedAccuracyScore [0, 0, 0, 1] [0, 0, 0, 0] ≠
      plainAccuracy [0, 0, 0, 1] [0, 0, 0, 0] := by
  constructor
  · unfold scoreModel
    apply balancedAccuracy_eq_macroAvgRecall
    rw [predictRows_length]
    exact hlen
  · have hbas : balancedAccuracyScore [0, 0, 0, 1] [0, 0, 0, 0] =
        macroAvgRecall [0, 0, 0, 1] [0, 0, 0, 0] :=
      balancedAccuracy_eq_macroAvgRecall _ _ rfl
    have hd : ([0, 0, 0, 1] : List ℚ).dedup = [0, 1] := by decide
    have c00 : (([0, 0, 0, 1] : List ℚ).zip [0, 0, 0, 0]).countP
        (fun pr => decide (pr.1 = 0) && decide (pr.2 = 0)) = 3 := by decide
    have c0 : ([0, 0, 0, 1] : List ℚ).countP (fun v => decide (v = 0)) = 3 := by
      decide
    have c11 : (([0, 0, 0, 1] : List ℚ).zip [0, 0, 0, 0]).countP
        (fun pr => decide (pr.1 = 1) && decide (pr.2 = 1)) = 0 := by decide
    have c1 : ([0, 0, 0, 1] : List ℚ).countP (fun v => decide (v = 1)) = 1 := by
      decide
    have cp : (([0, 0, 0, 1] : List ℚ).zip [0, 0, 0, 0]).countP
        (fun pr => decide (pr.1 = pr.2)) = 3 := by decide
    have hmac : macroAvgRecall [0, 0, 0, 1] [0, 0, 0, 0] = 1 / 2 := by
      unfold macroAvgRecall
      rw [hd]
      simp only [List.map_cons, List.map_nil, List.sum_cons, List.sum_nil,
        List.length_cons, List.length_nil]
      unfold recallOfClass
      simp only [c00, c0, c11, c1]
      norm_num
    have hpl : plainAccuracy [0, 0, 0, 1] [0, 0, 0, 0] = 3 / 4 := by
      unfold plainAccuracy
      rw [cp]
      norm_num
    rw [hbas, hmac, hpl]
    norm_num

/-- Witness for C9 on a two-row data set. -/
theorem score_is_balanced_accuracy_witness :
    scoreModel (fun (_ : Unit) _ => true) (fun _ _ => (0 : ℚ))
        ⟨[()], 1, [], []⟩ [[.pyInt 0], [.pyInt 1]] [0, 1] =
      macroAvgRecall [0, 1]
        (predictRows (fun (_ : Unit) _ => true) (fun _ _ => (0 : ℚ))
          ⟨[()], 1, [], []⟩ [[.pyInt 0], [.pyInt 1]]).1 :=
  (score_is_balanced_accuracy (fun (_ : Unit) _ => true) (fun _ _ => (0 : ℚ))
    ⟨[()], 1, [], []⟩ [[.pyInt 0], [.pyInt 1]] [0, 1] rfl).1

/-! ### Persistence (`eLCS.saveFinalMetrics` and `eLCS.rebootPopulation`,
eLCS.py lines 396-433) -/

/-- The cumulative timers of the `Timer` class that `saveFinalMetrics`
reads and `rebootPopulation` writes (`Timer` is not under `src/`; only the
fields `eLCS.py` touches are modelled, as exact rational times). -/
structure TimerState where
  globalTime : ℚ
  globalAdd : ℚ
  globalMatching : ℚ
  globalDeletion : ℚ
  globalSubsumption : ℚ
  globalGA : ℚ
  globalSelection : ℚ
  globalEvaluation : ℚ

/-- A fresh `Timer()` with zeroed cumulative times. -/
def freshTimer : TimerState := ⟨0, 0, 0, 0, 0, 0, 0, 0⟩

/-- The estimator state relevant to persistence; `α` abstracts the
`Classifier` class (not under `src/`) and a numerosity accessor is passed
separately. -/
structure RebootState (α : Type) where
  learningIterations : Nat
  explorIter : Nat
  timer : TimerState
  population : CSet α

/-- The snapshot list `eLCS.saveFinalMetrics` builds (eLCS.py lines
396-399): `[learningIterations, globalTime, globalMatching,
globalDeletion, globalSubsumption, globalSelection, globalEvaluation,
deepcopy(popSet)]`, as a record indexed like `rawData[0] .. rawData[7]`. -/
structure FinalMetrics (α : Type) where
  learningIterations : Nat
  globalTime : ℚ
  globalMatching : ℚ
  globalDeletion : ℚ
  globalSubsumption : ℚ
  globalSelection : ℚ
  globalEvaluation : ℚ
  popSet : List α

/-- `eLCS.saveFinalMetrics` (eLCS.py lines 396-399). -/
def saveFinalMetrics {α : Type} (m : RebootState α) : FinalMetrics α :=
  ⟨m.learningIterations, m.timer.globalTime, m.timer.globalMatching,
   m.timer.globalDeletion, m.timer.globalSubsumption,
   m.timer.globalSelection, m.timer.globalEvaluation,
   m.population.popSet⟩

/-- `eLCS.rebootPopulation` (eLCS.py lines 411-433) applied to unpickled
snapshot data `raw`: restore `popSet` verbatim into a fresh
`ClassifierSet`, set `microPopSize` by summing the numerosities of the
restored rules, restore the cumulative timers onto a fresh `Timer` (the
source writes `rawData[1]` to `globalAdd` and `rawData[5]` to
`globalGA`), and add the snapshot iteration count to both
`learningIterations` and `explorIter`. -/
def rebootPopulation {α : Type} (num : α → Nat) (raw : FinalMetrics α)
    (m : RebootState α) : RebootState α :=
  let popSet := raw.popSet
  let microPopSize := (popSet.map num).sum
  { m with
    population := ⟨popSet, microPopSize, [], []⟩,
    timer := { freshTimer with
      globalAdd := raw.globalTime,
      globalMatching := raw.globalMatching,
      globalDeletion := raw.globalDeletion,
      globalSubsumption := raw.globalSubsumption,
      globalGA := raw.globalSelection,
      globalEvaluation := raw.globalEvaluation },
    learningIterations := m.learningIterations + raw.learningIterations,
    explorIter := m.explorIter + raw.learningIterations }

/-- C8: rebooting from a snapshot written by `saveFinalMetrics` restores
`popSet` verbatim (no rule statistics are recomputed); the restored
population always satisfies the invariant `microPopSize = Σ numerosity
over popSet`; and whenever the saved model itself satisfied that
invariant, the restored `microPopSize` equals the saved one — i.e.
`popSet` and `microPopSize` are restored and nothing else about the
population is recomputed (eLCS.py lines 396-399 and 411-433). -/
theorem reboot_restores_population {α : Type} (num : α → Nat)
    (m m0 : RebootState α) :
    (rebootPopulation num (saveFinalMetrics m) m0).population.popSet =
      m.population.popSet ∧
    (∀ raw : FinalMetrics α,
      (rebootPopulation num raw m0).population.microPopSize =
        ((rebootPopulation num raw m0).population.popSet.map num).sum) ∧
    (m.population.microPopSize = (m.population.popSet.map num).sum →
      (rebootPopulation num (saveFinalMetrics m) m0).population.microPopSize =
        m.population.microPopSize) :=
  ⟨rfl, fun _ => rfl, fun hinv => hinv.symm⟩

/-- Witness for C8: a one-rule population of numerosity 2 reboots to
`microPopSize = 2`. -/
theorem reboot_restores_population_witness :
    (rebootPopulation (fun (_ : Unit) => 2)
        (saveFinalMetrics ⟨5, 5, freshTimer, ⟨[()], 2, [], []⟩⟩)
        ⟨0, 0, freshTimer, ⟨[], 0, [], []⟩⟩).population.microPopSize = 2 := by
  have h := reboot_restores_population (fun (_ : Unit) => 2)
    ⟨5, 5, freshTimer, ⟨[()], 2, [], []⟩⟩ ⟨0, 0, freshTimer, ⟨[], 0, [], []⟩⟩
  exact h.2.2 (by decide)

end SkeLCS
